import Mathlib

/-!
# Verification of the dependabot alert ETL pipeline

A shallow embedding of `src/main.py`: a batch job that extracts dependabot
alerts for every repository of an organisation through paginated HTTP
listings, persists them as a raw CSV checkpoint, and aggregates the
checkpoint into several derived report tables with SQL-style operations.

Timestamps are modelled as natural numbers (only their relative order is
observable in the pipeline); nullable columns are modelled as `Option`.
`ORDER BY` is modelled by an insertion sort parameterised by a boolean
"comes-not-after" predicate; the claims proved below only depend on the
sorted output being a permutation of its input.
-/

set_option autoImplicit false

namespace Dependabot

/-- Timestamps (`created_at`, `fixed_at`, `dismissed_at`): only their
relative order matters to the pipeline. -/
abbrev Timestamp := Nat

/-! ## Processed alert rows

The `alerts` DuckDB table of `generate_processed_alert_tables`
(src/main.py lines 107-146): the raw row projected to a fixed column list,
with the advisory columns renamed. Columns that the GitHub API always
populates (`state`, `created_at`, `severity`, `ghsa_id`, ...) are plain
values; the columns that are null until the corresponding event happens
(`fixed_at`, `dismissed_at`, `dismissed_by`, ...) are `Option`. -/

structure Alert where
  repository : String
  number : Int
  state : String
  created_at : Timestamp
  fixed_at : Option Timestamp
  dismissed_at : Option Timestamp
  dismissed_by : Option String
  dismissed_reason : Option String
  dismissed_comment : Option String
  summary : String
  ghsa_id : String
  severity : String
  url : String
  deriving Repr, DecidableEq

/-- An alert row after `ALTER TABLE alerts DROP COLUMN severity`
(src/main.py line 154): the same row without the `severity` column. -/
structure CriticalAlert where
  repository : String
  number : Int
  state : String
  created_at : Timestamp
  fixed_at : Option Timestamp
  dismissed_at : Option Timestamp
  dismissed_by : Option String
  dismissed_reason : Option String
  dismissed_comment : Option String
  summary : String
  ghsa_id : String
  url : String
  deriving Repr, DecidableEq

/-- Column list of the `alerts` DuckDB table (src/main.py lines 137-144). -/
def alertsColumns : List String :=
  ["repository", "number", "state", "created_at", "fixed_at", "dismissed_at",
   "dismissed_by", "dismissed_reason", "dismissed_comment", "summary",
   "ghsa_id", "severity", "url"]

/-- Columns of the persisted `critical_alerts.csv` report: the `alerts`
columns after `DROP COLUMN severity` (src/main.py line 154). -/
def criticalReportColumns : List String := alertsColumns.erase "severity"

/-- `UPDATE alerts SET state = 'dismissed' WHERE dismissed_at IS NOT NULL`
(src/main.py line 148), acting on one row. -/
def normalizeDismissed (a : Alert) : Alert :=
  if a.dismissed_at.isSome then { a with state := "dismissed" } else a

/-- The dismissed-state normalization applied to the whole table. -/
def updateAlerts (l : List Alert) : List Alert := l.map normalizeDismissed

/-- `DELETE FROM alerts WHERE severity != 'critical'` (src/main.py
line 151): keeps exactly the rows whose severity equals `critical`. -/
def deleteNonCritical (l : List Alert) : List Alert :=
  l.filter (fun a => a.severity == "critical")

/-- `ALTER TABLE alerts DROP COLUMN severity` (src/main.py line 154),
acting on one row. -/
def dropSeverity (a : Alert) : CriticalAlert :=
  { repository := a.repository
    number := a.number
    state := a.state
    created_at := a.created_at
    fixed_at := a.fixed_at
    dismissed_at := a.dismissed_at
    dismissed_by := a.dismissed_by
    dismissed_reason := a.dismissed_reason
    dismissed_comment := a.dismissed_comment
    summary := a.summary
    ghsa_id := a.ghsa_id
    url := a.url }

/-- Contents of the `alerts` table when `critical_alerts.csv` is written
(src/main.py line 156): normalization, then the critical filter, then the
severity-column drop. -/
def criticalAlerts (l : List Alert) : List CriticalAlert :=
  (deleteNonCritical (updateAlerts l)).map dropSeverity

/-! ## ORDER BY, modelled as an insertion sort -/

/-- Insert `x` in front of the first element `y` with `le x y`. -/
def insertBy {α : Type} (le : α → α → Bool) (x : α) : List α → List α
  | [] => [x]
  | y :: ys => if le x y then x :: y :: ys else y :: insertBy le x ys

/-- Insertion sort by the boolean predicate `le`; models `ORDER BY`. -/
def sortBy {α : Type} (le : α → α → Bool) : List α → List α
  | [] => []
  | x :: xs => insertBy le x (sortBy le xs)

/-! ## The pivoted count table -/

/-- Number of critical alerts of repository `repo` in state `st`:
the `COUNT(*)` of the `GROUP BY repository, state` subquery
(src/main.py lines 163-165). -/
def countState (cs : List CriticalAlert) (repo st : String) : Nat :=
  (cs.filter (fun a => a.repository == repo && a.state == st)).length

/-- One pivot cell: `NULL` when the `(repo, st)` group is absent from the
grouped subquery (count zero), otherwise the count (src/main.py
lines 167-170). -/
def pivotCell (cs : List CriticalAlert) (repo st : String) : Option Nat :=
  if countState cs repo st = 0 then none else some (countState cs repo st)

/-- A row of the `critical_alert_count` pivot table: one repository with
one nullable column per state. -/
structure CountRow where
  repository : String
  open_ : Option Nat
  dismissed : Option Nat
  fixed : Option Nat
  deriving Repr, DecidableEq

/-- The pivot column named by the state string (the `{state}` column of
the per-state SQL text, src/main.py lines 175-185). -/
def stateCell (row : CountRow) (st : String) : Option Nat :=
  if st = "open" then row.open_
  else if st = "dismissed" then row.dismissed
  else if st = "fixed" then row.fixed
  else none

/-- The distinct repositories of the table, the grouping keys of the
pivot. -/
def repositoriesOf (cs : List CriticalAlert) : List String :=
  (cs.map (fun a => a.repository)).dedup

/-- Descending comparison on nullable counts, NULLS LAST (DuckDB's
default null ordering). -/
def cellGe (x y : Option Nat) : Bool :=
  match x, y with
  | some a, some b => b ≤ a
  | some _, none => true
  | none, some _ => false
  | none, none => true

/-- The pivot row of one repository: its three state counts, each `NULL`
when that count is zero. -/
def pivotRow (cs : List CriticalAlert) (r : String) : CountRow :=
  { repository := r
    open_ := pivotCell cs r "open"
    dismissed := pivotCell cs r "dismissed"
    fixed := pivotCell cs r "fixed" }

/-- The `critical_alert_count` table (src/main.py lines 158-173): one row
per distinct repository, state counts pivoted into nullable columns,
ordered by `open` descending. -/
def critical_alert_count (cs : List CriticalAlert) : List CountRow :=
  sortBy (fun r s => cellGe r.open_ s.open_)
    ((repositoriesOf cs).map (pivotRow cs))

/-- The per-state report `{state}_critical_alert_count.csv` (src/main.py
lines 175-185): repositories whose (nullable) count for `st` exceeds 0,
coalesced to 0, ordered by that count descending. -/
def stateCountReport (cs : List CriticalAlert) (st : String) : List (String × Nat) :=
  sortBy (fun r s => s.2 ≤ r.2)
    (((critical_alert_count cs).filter (fun row =>
        match stateCell row st with
        | some c => decide (0 < c)
        | none => false)).map
      (fun row => (row.repository, (stateCell row st).getD 0)))

/-- A row of `all_critical_alert_count.csv`: all three counts coalesced
to 0. -/
structure AllCountRow where
  repository : String
  open_ : Nat
  dismissed : Nat
  fixed : Nat
  deriving Repr, DecidableEq

/-- The combined report `all_critical_alert_count.csv` (src/main.py
lines 187-197): every pivot row with nulls coalesced to 0, ordered by
`open` descending. -/
def all_critical_alert_count (cs : List CriticalAlert) : List AllCountRow :=
  sortBy (fun r s => s.open_ ≤ r.open_)
    ((critical_alert_count cs).map (fun row =>
      { repository := row.repository
        open_ := row.open_.getD 0
        dismissed := row.dismissed.getD 0
        fixed := row.fixed.getD 0 }))

/-- `max` of a list of timestamps (SQL `max(created_at)` over a nonempty
group). -/
def maxTimestamp (l : List Timestamp) : Timestamp := l.foldl max 0

/-- The `WHERE state = 'open'` restriction of the timeline query. -/
def openAlerts (cs : List CriticalAlert) : List CriticalAlert :=
  cs.filter (fun a => a.state == "open")

/-- One row of the timeline report: the advisory identifier with the most
recent `created_at` among the currently-open rows referencing it
(`select max(created_at) as created_at, ghsa_id ... group by ghsa_id`). -/
def advisoryRow (cs : List CriticalAlert) (g : String) : Timestamp × String :=
  (maxTimestamp (((openAlerts cs).filter (fun a => a.ghsa_id == g)).map
    (fun a => a.created_at)), g)

/-- The `alerts_by_date.csv` report (src/main.py lines 199-209): for the
currently-open rows of the (critical) `alerts` table, the most recent
`created_at` per distinct `ghsa_id`, ordered by that timestamp
descending. -/
def alerts_by_date (cs : List CriticalAlert) : List (Timestamp × String) :=
  sortBy (fun r s => s.1 ≤ r.1)
    ((((openAlerts cs).map (fun a => a.ghsa_id)).dedup).map (advisoryRow cs))

/-! ## HTTP pagination (src/main.py lines 9-68)

Both listings loop over `page = 1, 2, ...` at 100 items per page, breaking
at the first empty page and raising on the first non-success status. The
unbounded `while True` loop is embedded with an explicit fuel parameter;
every theorem below supplies enough fuel for the loop to reach its real
exit. -/

/-- The typed failure raised on a non-success HTTP status: it carries the
status code and the reason text of the response (src/main.py lines 32-35
and 62-66). -/
structure RequestError where
  status : Nat
  reason : String
  deriving Repr, DecidableEq

instance {ε α : Type} [DecidableEq ε] [DecidableEq α] :
    DecidableEq (Except ε α) := fun a b =>
  match a, b with
  | .ok x, .ok y =>
    if h : x = y then .isTrue (by rw [h])
    else .isFalse (fun hc => h (by injection hc))
  | .ok _, .error _ => .isFalse (fun hc => Except.noConfusion hc)
  | .error _, .ok _ => .isFalse (fun hc => Except.noConfusion hc)
  | .error e, .error f =>
    if h : e = f then .isTrue (by rw [h])
    else .isFalse (fun hc => h (by injection hc))

/-- One HTTP response: its status code, reason phrase, and parsed JSON
list body. -/
structure PageResponse (σ : Type) where
  status : Nat
  reason : String
  body : List σ
  deriving Repr, DecidableEq

/-- The shared pagination loop: request page `page`; on status 200 stop at
an empty body, otherwise accumulate the processed page and continue; on
any other status fail with the status and reason. Returns the collected
items together with the number of page requests issued. The fuel-0 branch
is unreachable whenever the fuel exceeds the index of the loop's real
exit page. -/
def pagedGo {σ α : Type} (resp : Nat → PageResponse σ)
    (process : List σ → List α) :
    Nat → Nat → List α → Except RequestError (List α × Nat)
  | 0, _, _ => .error ⟨0, "fuel exhausted"⟩
  | fuel + 1, page, acc =>
    if (resp page).status = 200 then
      if (resp page).body.isEmpty then .ok (acc, 1)
      else
        match pagedGo resp process fuel (page + 1)
            (acc ++ process (resp page).body) with
        | .ok (res, n) => .ok (res, n + 1)
        | .error e => .error e
    else .error ⟨(resp page).status, (resp page).reason⟩

/-- A JSON object already flattened to dot-joined key names: an
association list in Python dict key order. -/
abbrev RawRecord := List (String × String)

/-- Python dict assignment `rec[k] = v`: overwrite in place when the key
exists, append otherwise. -/
def dictSet (rec : RawRecord) (k v : String) : RawRecord :=
  if rec.any (fun kv => kv.1 == k) then
    rec.map (fun kv => if kv.1 == k then (k, v) else kv)
  else rec ++ [(k, v)]

/-- `get_dependabot_alerts_from_repository` (src/main.py lines 9-37):
pages through a repository's alerts, tagging each alert record with the
repository name (`alert["repository"] = repo`). -/
def get_dependabot_alerts_from_repository (repo : String)
    (resp : Nat → PageResponse RawRecord) (fuel : Nat) :
    Except RequestError (List RawRecord × Nat) :=
  pagedGo resp (fun page => page.map (fun a => dictSet a "repository" repo)) fuel 1 []

/-- One entry of the organisation repository listing. -/
structure RepoRec where
  name : String
  archived : Bool
  deriving Repr, DecidableEq

/-- `list_repositories_in_organisation` (src/main.py lines 40-68): pages
through the organisation's repositories, keeping the names of the
non-archived ones. -/
def list_repositories_in_organisation (resp : Nat → PageResponse RepoRec)
    (fuel : Nat) : Except RequestError (List String × Nat) :=
  pagedGo resp (fun page => (page.filter (fun r => !r.archived)).map
    (fun r => r.name)) fuel 1 []

/-- The slice of `items` served as page `p` under the `page`/`per_page`
convention (100 items per page, pages numbered from 1). -/
def pageSlice {σ : Type} (items : List σ) (p : Nat) : List σ :=
  (items.drop ((p - 1) * 100)).take 100

/-- A server holding `items`, answering page `p` with the slice of
`items` and the status/reason given by `statuses p`. -/
def serverOf {σ : Type} (items : List σ) (statuses : Nat → Nat × String)
    (p : Nat) : PageResponse σ :=
  ⟨(statuses p).1, (statuses p).2, pageSlice items p⟩

/-- Every request succeeds. -/
def allOk : Nat → Nat × String := fun _ => (200, "OK")

/-! ## Extraction orchestrator (src/main.py lines 71-100) -/

/-- The flat table `pd.json_normalize` builds from a list of (flattened)
records: its columns are the record keys in order of first appearance;
for an empty record list it has no columns at all. -/
structure RawTable where
  columns : List String
  rows : List RawRecord
  deriving Repr, DecidableEq

/-- `pd.json_normalize` on records whose nesting is already reflected in
dot-joined key names. -/
def json_normalize (records : List RawRecord) : RawTable :=
  ⟨((records.map (fun r => r.map Prod.fst)).flatten).dedup, records⟩

/-- The message of the exception raised on a failed page request
(src/main.py lines 33-35). -/
def errorMessage (e : RequestError) : String :=
  let s := e.status
  let r := e.reason
  s!"API call failed with status code {s}, {r}"

/-- Progress line printed after a successful per-repository fetch
(src/main.py line 94). -/
def fetchRepoLog (i n : Nat) (repo : String) : String :=
  s!" > {i}/{n} : Fetched alerts for {repo}"

/-- Log line printed when fetching one repository's alerts fails
(src/main.py line 96): it carries the repository's position and the
error's message. -/
def fetchRepoErrorLog (i n : Nat) (repo : String) (e : RequestError) : String :=
  let m := errorMessage e
  s!" > {i}/{n} : Error fetching alerts for {repo}: {m}"

/-- The per-repository fetch loop (src/main.py lines 85-96): each fetch
is given by the oracle `fetch` as a result plus a page-request count; a
failed fetch contributes no alerts, is logged with its position, and the
loop continues. Returns collected alerts, total requests, and the log. -/
def fetchAllRepos (fetch : String → Except RequestError (List RawRecord) × Nat)
    (n : Nat) : List String → Nat → List RawRecord × Nat × List String
  | [], _ => ([], 0, [])
  | repo :: rest, i =>
    let tail := fetchAllRepos fetch n rest (i + 1)
    match fetch repo with
    | (.ok as, c) => (as ++ tail.1, c + tail.2.1, fetchRepoLog i n repo :: tail.2.2)
    | (.error e, c) => (tail.1, c + tail.2.1, fetchRepoErrorLog i n repo e :: tail.2.2)

/-- Outcome of one run of the extraction orchestrator: whether it
returned or raised, the resulting checkpoint-file state, the number of
network requests issued, and the printed log. -/
structure ExtractionResult where
  outcome : Except RequestError Unit
  checkpoint : Option RawTable
  requests : Nat
  logs : List String
  deriving Repr

/-- `generate_raw_alerts_table` (src/main.py lines 71-100). The
checkpoint file is `checkpoint` (`none` when `outputs/raw_alerts.csv`
does not exist); the repository listing and the per-repository fetches
are oracles returning a result plus the number of page requests they
issue. If the checkpoint exists the whole phase is skipped; a listing
failure propagates and leaves the checkpoint state unchanged; otherwise
the collected alerts are normalized into a flat table and persisted. -/
def generate_raw_alerts_table (checkpoint : Option RawTable)
    (listRepos : Except RequestError (List String) × Nat)
    (fetch : String → Except RequestError (List RawRecord) × Nat) :
    ExtractionResult :=
  match checkpoint with
  | some t =>
    { outcome := .ok ()
      checkpoint := some t
      requests := 0
      logs := ["Raw alerts file already exists, skipping..."] }
  | none =>
    match listRepos with
    | (.error e, c) =>
      { outcome := .error e
        checkpoint := none
        requests := c
        logs := ["Generating raw alerts table..."] }
    | (.ok repos, c) =>
      let n := repos.length
      let res := fetchAllRepos fetch n repos 0
      { outcome := .ok ()
        checkpoint := some (json_normalize res.1)
        requests := c + res.2.1
        logs := "Generating raw alerts table..." ::
          s!"Found {n} repositories" :: res.2.2 }

/-! ## Aggregation-phase loading (src/main.py lines 103-123)

The aggregation phase first loads the checkpoint CSV and projects it to a
fixed column list; both steps are fallible and unhandled. -/

/-- `pd.read_csv` on the checkpoint file: reading a CSV that has no
columns raises `EmptyDataError` ("No columns to parse from file"). -/
def read_raw_alerts (t : RawTable) : Except String RawTable :=
  if t.columns.isEmpty then .error "No columns to parse from file" else .ok t

/-- The fixed column list of the pandas projection (src/main.py
lines 107-123), with the advisory columns still dot-named. -/
def requiredRawColumns : List String :=
  ["repository", "number", "state", "created_at", "fixed_at", "dismissed_at",
   "dismissed_by", "dismissed_reason", "dismissed_comment",
   "security_advisory.summary", "security_advisory.ghsa_id",
   "security_advisory.severity", "url"]

/-- The pandas projection `df[[...]]`: raises a `KeyError` when any
required column is missing from the loaded table. -/
def projectRequired (t : RawTable) : Except String RawTable :=
  if requiredRawColumns.all (fun c => t.columns.contains c) then
    .ok ⟨requiredRawColumns,
      t.rows.map (fun r => r.filter (fun kv => requiredRawColumns.contains kv.1))⟩
  else .error "KeyError: columns not in index"

/-- The report files written by the aggregation phase, in write order
(src/main.py lines 156-209). -/
def reportArtifacts : List String :=
  ["outputs/critical_alerts.csv", "outputs/open_critical_alert_count.csv",
   "outputs/dismissed_critical_alert_count.csv",
   "outputs/fixed_critical_alert_count.csv",
   "outputs/all_critical_alert_count.csv", "outputs/alerts_by_date.csv"]

/-- The fallible prefix of `generate_processed_alert_tables`
(src/main.py lines 103-123) at the artifact level: the report files are
produced only when loading and projecting the checkpoint succeed; a
failure in either step produces none of them. -/
def generate_processed_alert_tables_artifacts (t : RawTable) :
    Except String (List String) :=
  match read_raw_alerts t with
  | .error e => .error e
  | .ok t1 =>
    match projectRequired t1 with
    | .error e => .error e
    | .ok _ => .ok reportArtifacts

/-! ## Permutation lemmas for the insertion sort -/

theorem mem_insertBy {α : Type} (le : α → α → Bool) (x a : α) (l : List α) :
    a ∈ insertBy le x l ↔ a = x ∨ a ∈ l := by
  induction l with
  | nil => simp [insertBy]
  | cons y ys ih =>
    simp only [insertBy]
    by_cases h : le x y = true
    · simp [h, List.mem_cons]
    · simp only [if_neg h, List.mem_cons, ih]
      tauto

theorem mem_sortBy {α : Type} (le : α → α → Bool) (a : α) (l : List α) :
    a ∈ sortBy le l ↔ a ∈ l := by
  induction l with
  | nil => simp [sortBy]
  | cons x xs ih => simp [sortBy, mem_insertBy, ih]

theorem countP_insertBy {α : Type} (le : α → α → Bool) (p : α → Bool)
    (x : α) (l : List α) :
    (insertBy le x l).countP p = (if p x then 1 else 0) + l.countP p := by
  induction l with
  | nil => simp [insertBy, List.countP_cons]
  | cons y ys ih =>
    simp only [insertBy]
    by_cases h : le x y = true
    · simp [h, List.countP_cons]
      omega
    · simp only [if_neg h, List.countP_cons, ih]
      omega

theorem countP_sortBy {α : Type} (le : α → α → Bool) (p : α → Bool)
    (l : List α) : (sortBy le l).countP p = l.countP p := by
  induction l with
  | nil => rfl
  | cons x xs ih => simp [sortBy, countP_insertBy, ih, List.countP_cons]; omega

/-! ## Lemmas about the group maximum -/

theorem init_le_foldl_max (l : List Nat) (a : Nat) : a ≤ l.foldl max a := by
  induction l generalizing a with
  | nil => exact le_refl a
  | cons y ys ih => exact le_trans (le_max_left a y) (ih (max a y))

theorem le_foldl_max (l : List Nat) : ∀ (a x : Nat), x ∈ l → x ≤ l.foldl max a := by
  induction l with
  | nil => intro a x hx; cases hx
  | cons y ys ih =>
    intro a x hx
    rcases List.mem_cons.mp hx with rfl | hmem
    · exact le_trans (le_max_right a x) (init_le_foldl_max ys (max a x))
    · exact ih (max a y) x hmem

theorem foldl_max_mem (l : List Nat) : ∀ (a : Nat), l.foldl max a = a ∨ l.foldl max a ∈ l := by
  induction l with
  | nil => intro a; exact Or.inl rfl
  | cons y ys ih =>
    intro a
    rcases ih (max a y) with h | h
    · simp only [List.foldl_cons, h]
      rcases Nat.le_total y a with hya | hay
      · left; exact Nat.max_eq_left hya
      · right; rw [Nat.max_eq_right hay]; exact List.mem_cons_self y ys
    · right; exact List.mem_cons.mpr (Or.inr h)

theorem maxTimestamp_eq (l : List Nat) (T : Nat) (hT : T ∈ l)
    (hub : ∀ x ∈ l, x ≤ T) : maxTimestamp l = T := by
  have h1 : T ≤ l.foldl max 0 := le_foldl_max l 0 T hT
  have h2 : l.foldl max 0 ≤ T := by
    rcases foldl_max_mem l 0 with h | h
    · omega
    · exact hub _ h
  exact Nat.le_antisymm h2 h1

/-! ## Helper lemmas for the extraction orchestrator -/

/-- Alerts contributed by one repository to the raw table: a failed fetch
contributes exactly what a repository with zero alerts contributes. -/
def contributedAlerts
    (fetch : String → Except RequestError (List RawRecord) × Nat)
    (r : String) : List RawRecord :=
  match (fetch r).1 with
  | .ok as => as
  | .error _ => []

theorem fetchAllRepos_fst (fetch : String → Except RequestError (List RawRecord) × Nat)
    (n : Nat) : ∀ (rs : List String) (i : Nat),
    (fetchAllRepos fetch n rs i).1 = (rs.map (contributedAlerts fetch)).flatten := by
  intro rs
  induction rs with
  | nil => intro i; rfl
  | cons x xs ih =>
    intro i
    simp only [fetchAllRepos, List.map_cons, List.flatten_cons]
    rcases hfx : fetch x with ⟨res, c⟩
    cases res with
    | ok as => simp [hfx, ih, contributedAlerts]
    | error e => simp [hfx, ih, contributedAlerts]

theorem fetchAllRepos_nil_of_empty
    (fetch : String → Except RequestError (List RawRecord) × Nat) (n : Nat) :
    ∀ (rs : List String) (i : Nat),
    (∀ r ∈ rs, contributedAlerts fetch r = []) →
    (fetchAllRepos fetch n rs i).1 = [] := by
  intro rs i h
  rw [fetchAllRepos_fst]
  rw [List.flatten_eq_nil_iff]
  intro l hl
  rcases List.mem_map.mp hl with ⟨r, hr, rfl⟩
  exact h r hr

theorem fetchAllRepos_error_log
    (fetch : String → Except RequestError (List RawRecord) × Nat) (n : Nat) :
    ∀ (rs : List String) (i k : Nat) (r : String) (e : RequestError),
    rs[k]? = some r → (fetch r).1 = .error e →
    fetchRepoErrorLog (i + k) n r e ∈ (fetchAllRepos fetch n rs i).2.2 := by
  intro rs
  induction rs with
  | nil => intro i k r e hk _; simp at hk
  | cons x xs ih =>
    intro i k r e hk hf
    cases k with
    | zero =>
      rw [List.getElem?_cons_zero] at hk
      injection hk with hk
      subst hk
      simp only [fetchAllRepos]
      rcases hfx : fetch x with ⟨res, c⟩
      cases res with
      | ok as => rw [hfx] at hf; simp at hf
      | error e2 =>
        rw [hfx] at hf
        simp only at hf
        injection hf with hf
        subst hf
        simp
    | succ m =>
      rw [List.getElem?_cons_succ] at hk
      have hmem := ih (i + 1) m r e hk hf
      have harith : i + (m + 1) = (i + 1) + m := by omega
      rw [harith]
      simp only [fetchAllRepos]
      rcases hfx : fetch x with ⟨res, c⟩
      cases res with
      | ok as => exact List.mem_cons_of_mem _ hmem
      | error e2 => exact List.mem_cons_of_mem _ hmem

/-! ## Claims about the aggregation engine: normalization and filtering -/

/-- C1: every alert row with a non-null `dismissed_at` has state
`dismissed` after the aggregation-phase normalization
(`UPDATE alerts SET state = 'dismissed' WHERE dismissed_at IS NOT NULL`),
whatever state the raw row carried. -/
theorem C1_dismissed_normalization (l : List Alert) (b : Alert)
    (hb : b ∈ updateAlerts l) (hd : b.dismissed_at.isSome) :
    b.state = "dismissed" := by
  rcases List.mem_map.mp hb with ⟨a, -, rfl⟩
  by_cases h : a.dismissed_at.isSome
  · simp [normalizeDismissed, h]
  · rw [normalizeDismissed, if_neg h] at hd
    exact absurd hd h

/-- A concrete alert whose raw state is `open` even though it carries a
`dismissed_at` timestamp. -/
def sampleDismissedAlert : Alert :=
  { repository := "repo-a", number := 1, state := "open", created_at := 3,
    fixed_at := none, dismissed_at := some 5, dismissed_by := some "alice",
    dismissed_reason := some "tolerable", dismissed_comment := none,
    summary := "vuln", ghsa_id := "GHSA-0001", severity := "critical",
    url := "https://example/1" }

theorem C1_dismissed_normalization_witness :
    normalizeDismissed sampleDismissedAlert ∈ updateAlerts [sampleDismissedAlert] ∧
    (normalizeDismissed sampleDismissedAlert).dismissed_at.isSome = true ∧
    (normalizeDismissed sampleDismissedAlert).state = "dismissed" :=
  ⟨by decide, by decide,
    C1_dismissed_normalization [sampleDismissedAlert]
      (normalizeDismissed sampleDismissedAlert) (by decide) (by decide)⟩

/-- C3: after the critical filter, a row is in the persisted
critical-alert report iff it came from a normalized row whose severity is
`critical` (so the report has zero rows of any other severity), and the
report's column list does not contain a `severity` column. -/
theorem C3_critical_filter (l : List Alert) (c : CriticalAlert) :
    (c ∈ criticalAlerts l ↔
      ∃ a, a ∈ updateAlerts l ∧ a.severity = "critical" ∧ c = dropSeverity a) ∧
    "severity" ∉ criticalReportColumns := by
  constructor
  · unfold criticalAlerts deleteNonCritical
    constructor
    · intro hc
      rcases List.mem_map.mp hc with ⟨a, ha, rfl⟩
      rcases List.mem_filter.mp ha with ⟨ha1, ha2⟩
      exact ⟨a, ha1, by simpa using ha2, rfl⟩
    · rintro ⟨a, ha, hs, rfl⟩
      exact List.mem_map_of_mem _ (List.mem_filter.mpr ⟨ha, by simpa using hs⟩)
  · decide

/-! ## Claims about the extraction orchestrator -/

/-- C6: when the checkpoint file already exists the extraction phase is
skipped — zero network requests, checkpoint byte-identical — and a second
run after any completed run is such a skip, so running extraction twice
equals running it once. -/
theorem C6_extraction_idempotent (t : RawTable)
    (lr lr2 : Except RequestError (List String) × Nat)
    (f f2 : String → Except RequestError (List RawRecord) × Nat)
    (s : Option RawTable) (n : Nat) (log : List String)
    (h : generate_raw_alerts_table none lr f =
      { outcome := .ok (), checkpoint := s, requests := n, logs := log }) :
    generate_raw_alerts_table (some t) lr2 f2 =
      { outcome := .ok (), checkpoint := some t, requests := 0,
        logs := ["Raw alerts file already exists, skipping..."] } ∧
    generate_raw_alerts_table s lr2 f2 =
      { outcome := .ok (), checkpoint := s, requests := 0,
        logs := ["Raw alerts file already exists, skipping..."] } := by
  constructor
  · rfl
  · obtain ⟨res, c⟩ := lr
    cases res with
    | error e => simp [generate_raw_alerts_table] at h
    | ok repos =>
      have hs : s = some (json_normalize (fetchAllRepos f repos.length repos 0).1) := by
        have hc := congrArg ExtractionResult.checkpoint h
        simpa [generate_raw_alerts_table] using hc.symm
      subst hs
      rfl

theorem C6_extraction_idempotent_witness :
    generate_raw_alerts_table none (.ok [], 0)
        (fun _ => (.ok [], 0)) =
      { outcome := .ok (), checkpoint := some (json_normalize []),
        requests := 0,
        logs := ["Generating raw alerts table...", "Found 0 repositories"] } ∧
    (generate_raw_alerts_table (some (json_normalize [])) (.ok [], 0)
        (fun _ => (.ok [], 0)) =
      { outcome := .ok (), checkpoint := some (json_normalize []),
        requests := 0,
        logs := ["Raw alerts file already exists, skipping..."] } ∧
     generate_raw_alerts_table (some (json_normalize [])) (.ok [], 0)
        (fun _ => (.ok [], 0)) =
      { outcome := .ok (), checkpoint := some (json_normalize []),
        requests := 0,
        logs := ["Raw alerts file already exists, skipping..."] }) :=
  ⟨rfl, C6_extraction_idempotent (json_normalize []) (.ok [], 0) (.ok [], 0)
    (fun _ => (.ok [], 0)) (fun _ => (.ok [], 0))
    (some (json_normalize [])) 0
    ["Generating raw alerts table...", "Found 0 repositories"] rfl⟩

/-- C9: when the repository-listing step itself fails, the orchestrator
propagates the error and does not create the checkpoint file. -/
theorem C9_listing_failure_no_checkpoint (e : RequestError) (c : Nat)
    (f : String → Except RequestError (List RawRecord) × Nat) :
    generate_raw_alerts_table none (.error e, c) f =
      { outcome := .error e, checkpoint := none, requests := c,
        logs := ["Generating raw alerts table..."] } := rfl

/-- C10: if extraction collects zero alerts in total (each repository's
fetch either fails or returns no alerts), the checkpoint is a table with
no columns, and the aggregation phase fails when loading it, producing no
report artifact. -/
theorem C10_empty_checkpoint_fatal (repos : List String) (c : Nat)
    (f : String → Except RequestError (List RawRecord) × Nat)
    (h : ∀ r ∈ repos, contributedAlerts f r = []) :
    (generate_raw_alerts_table none (.ok repos, c) f).checkpoint =
      some ⟨[], []⟩ ∧
    generate_processed_alert_tables_artifacts ⟨[], []⟩ =
      .error "No columns to parse from file" := by
  constructor
  · simp only [generate_raw_alerts_table]
    rw [fetchAllRepos_nil_of_empty f repos.length repos 0 h]
    rfl
  · rfl

/-- A fetch oracle whose first repository fails and whose others return
zero alerts. -/
def sampleEmptyFetch (x : String) : Except RequestError (List RawRecord) × Nat :=
  if x = "repo-a" then (.error ⟨500, "Internal Server Error"⟩, 1)
  else (.ok [], 1)

theorem C10_empty_checkpoint_fatal_witness :
    (∀ r ∈ ["repo-a", "repo-b"], contributedAlerts sampleEmptyFetch r = []) ∧
    ((generate_raw_alerts_table none (.ok ["repo-a", "repo-b"], 1)
        sampleEmptyFetch).checkpoint = some ⟨[], []⟩ ∧
     generate_processed_alert_tables_artifacts ⟨[], []⟩ =
      .error "No columns to parse from file") :=
  ⟨by decide, C10_empty_checkpoint_fatal ["repo-a", "repo-b"] 1
    sampleEmptyFetch (by decide)⟩

/-- C8: a failed per-repository fetch is caught and logged with the
repository's position and the error's message, extraction continues, and
the final checkpoint aggregates the alerts of exactly the repositories
whose fetches succeeded (a failed repository contributes the same as one
with zero alerts). -/
theorem C8_per_repository_failure (repos : List String) (c k : Nat)
    (r : String) (e : RequestError)
    (f : String → Except RequestError (List RawRecord) × Nat)
    (hk : repos[k]? = some r) (hf : (f r).1 = .error e) :
    (generate_raw_alerts_table none (.ok repos, c) f).outcome = .ok () ∧
    (generate_raw_alerts_table none (.ok repos, c) f).checkpoint =
      some (json_normalize ((repos.map (contributedAlerts f)).flatten)) ∧
    fetchRepoErrorLog k repos.length r e ∈
      (generate_raw_alerts_table none (.ok repos, c) f).logs := by
  refine ⟨rfl, ?_, ?_⟩
  · simp only [generate_raw_alerts_table]
    rw [fetchAllRepos_fst]
  · have hmem := fetchAllRepos_error_log f repos.length repos 0 k r e hk hf
    rw [Nat.zero_add] at hmem
    simp only [generate_raw_alerts_table]
    exact List.mem_cons_of_mem _ (List.mem_cons_of_mem _ hmem)

/-- A fetch oracle where `repo-bad` fails with HTTP 403 and every other
repository returns one alert record. -/
def sampleFailingFetch (x : String) :
    Except RequestError (List RawRecord) × Nat :=
  if x = "repo-bad" then (.error ⟨403, "Forbidden"⟩, 1)
  else (.ok [[("number", "7"), ("state", "open")]], 2)

theorem C8_per_repository_failure_witness :
    (["repo-good", "repo-bad"][1]? = some "repo-bad" ∧
     (sampleFailingFetch "repo-bad").1 = .error ⟨403, "Forbidden"⟩) ∧
    ((generate_raw_alerts_table none (.ok ["repo-good", "repo-bad"], 1)
        sampleFailingFetch).outcome = .ok () ∧
     (generate_raw_alerts_table none (.ok ["repo-good", "repo-bad"], 1)
        sampleFailingFetch).checkpoint =
      some (json_normalize ((["repo-good", "repo-bad"].map
        (contributedAlerts sampleFailingFetch)).flatten)) ∧
     fetchRepoErrorLog 1 2 "repo-bad" ⟨403, "Forbidden"⟩ ∈
      (generate_raw_alerts_table none (.ok ["repo-good", "repo-bad"], 1)
        sampleFailingFetch).logs) :=
  ⟨⟨by decide, by decide⟩,
    C8_per_repository_failure ["repo-good", "repo-bad"] 1 1 "repo-bad"
      ⟨403, "Forbidden"⟩ sampleFailingFetch (by decide) (by decide)⟩

/-! ## Claims about the pivoted count reports -/

theorem countState_pos_mem (cs : List CriticalAlert) (R st : String)
    (h : countState cs R st ≠ 0) : R ∈ repositoriesOf cs := by
  unfold countState at h
  have hne : (cs.filter (fun a => a.repository == R && a.state == st)) ≠ [] := by
    intro hnil
    rw [hnil] at h
    exact h rfl
  rcases List.exists_mem_of_ne_nil _ hne with ⟨a, ha⟩
  rcases List.mem_filter.mp ha with ⟨hacs, hcond⟩
  have hrep : a.repository = R := by
    have := (Bool.and_eq_true _ _).mp hcond
    simpa using this.1
  unfold repositoriesOf
  rw [List.mem_dedup]
  exact List.mem_map.mpr ⟨a, hacs, hrep⟩

theorem mem_critical_alert_count (cs : List CriticalAlert) (row : CountRow) :
    row ∈ critical_alert_count cs ↔
      ∃ r ∈ repositoriesOf cs, row = pivotRow cs r := by
  unfold critical_alert_count
  rw [mem_sortBy]
  constructor
  · intro h
    rcases List.mem_map.mp h with ⟨r, hr, rfl⟩
    exact ⟨r, hr, rfl⟩
  · rintro ⟨r, hr, rfl⟩
    exact List.mem_map_of_mem _ hr

/-- C2: if repository `R` has exactly 3 open, 0 dismissed and 2 fixed
critical alerts, the combined count report contains the row
`(R, open=3, dismissed=0, fixed=2)`, and `R` appears in no row of the
per-state `dismissed` report (zero counts are excluded there). -/
theorem C2_pivot_reports (l : List Alert) (R : String)
    (h3 : countState (criticalAlerts l) R "open" = 3)
    (h0 : countState (criticalAlerts l) R "dismissed" = 0)
    (h2 : countState (criticalAlerts l) R "fixed" = 2) :
    ({ repository := R, open_ := 3, dismissed := 0, fixed := 2 } : AllCountRow) ∈
      all_critical_alert_count (criticalAlerts l) ∧
    ∀ row ∈ stateCountReport (criticalAlerts l) "dismissed", row.1 ≠ R := by
  set cs := criticalAlerts l with hcs
  have hmem : R ∈ repositoriesOf cs := countState_pos_mem cs R "open" (by omega)
  have hrow : pivotRow cs R =
      { repository := R, open_ := some 3, dismissed := none, fixed := some 2 } := by
    unfold pivotRow pivotCell
    rw [h3, h0, h2]
    rfl
  constructor
  · unfold all_critical_alert_count
    rw [mem_sortBy]
    apply List.mem_map.mpr
    refine ⟨pivotRow cs R, ?_, ?_⟩
    · exact (mem_critical_alert_count cs _).mpr ⟨R, hmem, rfl⟩
    · rw [hrow]
      rfl
  · intro row hrowmem
    unfold stateCountReport at hrowmem
    rw [mem_sortBy] at hrowmem
    rcases List.mem_map.mp hrowmem with ⟨crow, hcrow, rfl⟩
    rcases List.mem_filter.mp hcrow with ⟨hcrow1, hcond⟩
    intro hRE
    rcases (mem_critical_alert_count cs crow).mp hcrow1 with ⟨r, -, rfl⟩
    have hrR : r = R := hRE
    subst hrR
    have hcell : stateCell (pivotRow cs r) "dismissed" = none := by
      simp only [stateCell, pivotRow]
      norm_num
      unfold pivotCell
      rw [h0]
      rfl
    rw [hcell] at hcond
    exact Bool.false_ne_true hcond

/-- A critical alert of repository `repo-x` in state `st`, never
dismissed. -/
def samplePivotAlert (n : Int) (st : String) : Alert :=
  { sampleDismissedAlert with
      number := n
      repository := "repo-x"
      state := st
      dismissed_at := none
      dismissed_by := none
      dismissed_reason := none }

def samplePivotAlerts : List Alert :=
  [samplePivotAlert 1 "open", samplePivotAlert 2 "open",
   samplePivotAlert 3 "open", samplePivotAlert 4 "fixed",
   samplePivotAlert 5 "fixed",
   { samplePivotAlert 6 "open" with
      repository := "repo-y"
      severity := "low" }]

theorem C2_pivot_reports_witness :
    (countState (criticalAlerts samplePivotAlerts) "repo-x" "open" = 3 ∧
     countState (criticalAlerts samplePivotAlerts) "repo-x" "dismissed" = 0 ∧
     countState (criticalAlerts samplePivotAlerts) "repo-x" "fixed" = 2) ∧
    (({ repository := "repo-x", open_ := 3, dismissed := 0, fixed := 2 } :
        AllCountRow) ∈ all_critical_alert_count (criticalAlerts samplePivotAlerts) ∧
     ∀ row ∈ stateCountReport (criticalAlerts samplePivotAlerts) "dismissed",
      row.1 ≠ "repo-x") :=
  ⟨⟨by decide, by decide, by decide⟩,
    C2_pivot_reports samplePivotAlerts "repo-x" (by decide) (by decide) (by decide)⟩

/-! ## The advisory timeline report -/

theorem countP_beq_of_nodup (l : List String) (g : String)
    (hnd : l.Nodup) (hg : g ∈ l) : l.countP (fun x => x == g) = 1 := by
  induction l with
  | nil => cases hg
  | cons x xs ih =>
    rw [List.countP_cons]
    rcases List.mem_cons.mp hg with rfl | hmem
    · have hnotin : g ∉ xs := (List.nodup_cons.mp hnd).1
      have h0 : xs.countP (fun y => y == g) = 0 :=
        List.countP_eq_zero.mpr (fun a ha hpa =>
          hnotin (beq_iff_eq.mp hpa ▸ ha))
      simp [h0]
    · have hx : x ≠ g := by
        intro hxg
        exact (List.nodup_cons.mp hnd).1 (hxg ▸ hmem)
      have hfx : (x == g) = false := beq_eq_false_iff_ne.mpr hx
      rw [ih (List.nodup_cons.mp hnd).2 hmem, hfx]
      simp

/-- C5: if two currently-open critical alerts share `ghsa_id` `g` with
creation timestamps `T1 < T2`, and `T2` is the most recent creation
timestamp among the open alerts referencing `g`, the alerts-by-date
report contains exactly one row for `g` and its timestamp is `T2`. -/
theorem C5_alerts_by_date_timeline (l : List Alert) (g : String)
    (T1 T2 : Timestamp) (a1 a2 : CriticalAlert)
    (h1 : a1 ∈ criticalAlerts l) (h2 : a2 ∈ criticalAlerts l)
    (h1s : a1.state = "open") (h2s : a2.state = "open")
    (h1g : a1.ghsa_id = g) (h2g : a2.ghsa_id = g)
    (h1t : a1.created_at = T1) (h2t : a2.created_at = T2) (hlt : T1 < T2)
    (hmax : ∀ a ∈ criticalAlerts l, a.state = "open" → a.ghsa_id = g →
      a.created_at ≤ T2) :
    (alerts_by_date (criticalAlerts l)).countP (fun row => row.2 == g) = 1 ∧
    (T2, g) ∈ alerts_by_date (criticalAlerts l) := by
  set cs := criticalAlerts l with hcs
  have h2open : a2 ∈ openAlerts cs :=
    List.mem_filter.mpr ⟨h2, by simp [h2s]⟩
  have hg : g ∈ ((openAlerts cs).map (fun a => a.ghsa_id)).dedup := by
    rw [List.mem_dedup]
    exact List.mem_map.mpr ⟨a2, h2open, h2g⟩
  have hrow : advisoryRow cs g = (T2, g) := by
    unfold advisoryRow
    congr 1
    apply maxTimestamp_eq
    · exact List.mem_map.mpr ⟨a2,
        List.mem_filter.mpr ⟨h2open, by simp [h2g]⟩, h2t⟩
    · intro x hx
      rcases List.mem_map.mp hx with ⟨a, ha, rfl⟩
      rcases List.mem_filter.mp ha with ⟨haopen, hag⟩
      rcases List.mem_filter.mp haopen with ⟨hacs, has⟩
      exact hmax a hacs (by simpa using has) (by simpa using hag)
  constructor
  · unfold alerts_by_date
    rw [countP_sortBy, List.countP_map]
    have hfun : ((fun row : Timestamp × String => row.2 == g) ∘ advisoryRow cs) =
        fun x => x == g := by
      funext x
      simp [advisoryRow]
    rw [hfun]
    exact countP_beq_of_nodup _ g (List.nodup_dedup _) hg
  · unfold alerts_by_date
    rw [mem_sortBy]
    exact List.mem_map.mpr ⟨g, hg, hrow⟩

/-- Two open critical alerts on the same advisory, created at times 1
and 5, in different repositories. -/
def sampleTimelineAlerts : List Alert :=
  [{ samplePivotAlert 1 "open" with
      created_at := 1
      ghsa_id := "GHSA-9" },
   { samplePivotAlert 2 "open" with
      repository := "repo-y"
      created_at := 5
      ghsa_id := "GHSA-9" }]

theorem C5_alerts_by_date_timeline_witness :
    ((criticalAlerts sampleTimelineAlerts)[0]? =
        some (dropSeverity (sampleTimelineAlerts.get ⟨0, by decide⟩)) ∧
     (1 : Nat) < 5 ∧
     ∀ a ∈ criticalAlerts sampleTimelineAlerts, a.state = "open" →
      a.ghsa_id = "GHSA-9" → a.created_at ≤ 5) ∧
    ((alerts_by_date (criticalAlerts sampleTimelineAlerts)).countP
        (fun row => row.2 == "GHSA-9") = 1 ∧
     (5, "GHSA-9") ∈ alerts_by_date (criticalAlerts sampleTimelineAlerts)) :=
  ⟨⟨by decide, by decide, by decide⟩,
    C5_alerts_by_date_timeline sampleTimelineAlerts "GHSA-9" 1 5
      (dropSeverity (sampleTimelineAlerts.get ⟨0, by decide⟩))
      (dropSeverity (sampleTimelineAlerts.get ⟨1, by decide⟩))
      (by decide) (by decide) (by decide) (by decide) (by decide) (by decide)
      (by decide) (by decide) (by decide) (by decide)⟩

/-! ## Pagination: request counts and failure propagation -/

theorem hom_nil {σ α : Type} (process : List σ → List α)
    (hom : ∀ a b : List σ, process (a ++ b) = process a ++ process b) :
    process [] = [] := by
  have h := hom [] []
  rw [List.nil_append] at h
  nth_rewrite 1 [← List.append_nil (process ([] : List σ))] at h
  exact (List.append_cancel_left h).symm

theorem drop_page_succ {σ : Type} (items : List σ) (p : Nat) (hp : 1 ≤ p) :
    items.drop ((p + 1 - 1) * 100) = (items.drop ((p - 1) * 100)).drop 100 := by
  rw [List.drop_drop]
  congr 1
  omega

theorem take_100_isEmpty_false {σ : Type} (l : List σ) (h : l ≠ []) :
    (l.take 100).isEmpty = false := by
  rw [List.isEmpty_eq_false_iff_exists_mem]
  rcases l with - | ⟨x, xs⟩
  · exact absurd rfl h
  · exact ⟨x, by simp⟩

theorem pagedGo_succ_eq {σ α : Type} (items : List σ)
    (statuses : Nat → Nat × String) (process : List σ → List α)
    (fuel p : Nat) (acc : List α) :
    pagedGo (serverOf items statuses) process (fuel + 1) p acc =
      if (statuses p).1 = 200 then
        if (pageSlice items p).isEmpty then .ok (acc, 1)
        else
          match pagedGo (serverOf items statuses) process fuel (p + 1)
              (acc ++ process (pageSlice items p)) with
          | .ok (res, n) => .ok (res, n + 1)
          | .error e => .error e
      else .error ⟨(statuses p).1, (statuses p).2⟩ := rfl

/-- With every status in the issued window equal to 200, the pagination
loop started at page `p` succeeds, collecting the processed remainder of
`items` and issuing one request per 100-item chunk plus the terminating
empty-page request. -/
theorem pagedGo_server_ok {σ α : Type} (items : List σ)
    (statuses : Nat → Nat × String) (process : List σ → List α)
    (hom : ∀ a b : List σ, process (a ++ b) = process a ++ process b) :
    ∀ (fuel p : Nat) (acc : List α), 1 ≤ p →
      ((items.drop ((p - 1) * 100)).length + 99) / 100 + 1 ≤ fuel →
      (∀ q, p ≤ q → q ≤ p + ((items.drop ((p - 1) * 100)).length + 99) / 100 →
        (statuses q).1 = 200) →
      pagedGo (serverOf items statuses) process fuel p acc =
        .ok (acc ++ process (items.drop ((p - 1) * 100)),
          ((items.drop ((p - 1) * 100)).length + 99) / 100 + 1) := by
  intro fuel
  induction fuel with
  | zero => intro p acc hp hfuel hst; omega
  | succ fuel ih =>
    intro p acc hp hfuel hst
    have hstp : (statuses p).1 = 200 := hst p (le_refl p) (by omega)
    rw [pagedGo_succ_eq, if_pos hstp]
    by_cases hR : items.drop ((p - 1) * 100) = []
    · have hslice : pageSlice items p = [] := by
        rw [pageSlice, hR]
        rfl
      rw [hslice]
      simp only [List.isEmpty_nil, if_true]
      rw [hR, hom_nil process hom, List.append_nil]
      norm_num
    · have hslice : pageSlice items p = (items.drop ((p - 1) * 100)).take 100 := rfl
      have hne : (pageSlice items p).isEmpty = false := by
        rw [hslice]
        exact take_100_isEmpty_false _ hR
      rw [if_neg (by rw [hne]; exact Bool.false_ne_true)]
      set L := (items.drop ((p - 1) * 100)).length with hLdef
      have hL1 : 1 ≤ L := by
        rw [hLdef]
        exact List.length_pos.mpr hR
      have harg := drop_page_succ items p hp
      have hlen : (items.drop ((p + 1 - 1) * 100)).length = L - 100 := by
        rw [harg, List.length_drop]
      have hdiv : (L + 99) / 100 = ((L - 100) + 99) / 100 + 1 := by omega
      have hrec := ih (p + 1) (acc ++ process (pageSlice items p)) (by omega)
        (by rw [hlen]; omega)
        (by
          intro q hq1 hq2
          rw [hlen] at hq2
          exact hst q (by omega) (by omega))
      rw [hrec]
      rw [hlen, harg, hslice]
      rw [List.append_assoc, ← hom, List.take_append_drop]
      have hcount : ((L - 100) + 99) / 100 + 1 + 1 = (L + 99) / 100 + 1 := by omega
      exact congrArg (fun n =>
        Except.ok (ε := RequestError)
          (acc ++ process (items.drop ((p - 1) * 100)), n)) hcount

/-- If every status before page `q` is 200 but page `q` (inside the
issued window) fails, the pagination loop aborts with a `RequestError`
carrying page `q`'s status and reason, returning no partial result. -/
theorem pagedGo_server_error {σ α : Type} (items : List σ)
    (statuses : Nat → Nat × String) (process : List σ → List α) :
    ∀ (fuel p q : Nat) (acc : List α), 1 ≤ p → p ≤ q →
      q ≤ p + ((items.drop ((p - 1) * 100)).length + 99) / 100 →
      q - p < fuel →
      (∀ j, p ≤ j → j < q → (statuses j).1 = 200) →
      (statuses q).1 ≠ 200 →
      pagedGo (serverOf items statuses) process fuel p acc =
        .error ⟨(statuses q).1, (statuses q).2⟩ := by
  intro fuel
  induction fuel with
  | zero => intro p q acc hp hpq hqE hfuel hgood hbad; omega
  | succ fuel ih =>
    intro p q acc hp hpq hqE hfuel hgood hbad
    rw [pagedGo_succ_eq]
    by_cases hq : q = p
    · subst hq
      rw [if_neg hbad]
    · have hlt : p < q := lt_of_le_of_ne hpq (fun h => hq h.symm)
      have hstp : (statuses p).1 = 200 := hgood p (le_refl p) hlt
      rw [if_pos hstp]
      have hR : items.drop ((p - 1) * 100) ≠ [] := by
        intro hnil
        rw [hnil] at hqE
        simp at hqE
        omega
      have hslice : pageSlice items p = (items.drop ((p - 1) * 100)).take 100 := rfl
      have hne : (pageSlice items p).isEmpty = false := by
        rw [hslice]
        exact take_100_isEmpty_false _ hR
      rw [if_neg (by rw [hne]; exact Bool.false_ne_true)]
      set L := (items.drop ((p - 1) * 100)).length with hLdef
      have hL1 : 1 ≤ L := by
        rw [hLdef]
        exact List.length_pos.mpr hR
      have harg := drop_page_succ items p hp
      have hlen : (items.drop ((p + 1 - 1) * 100)).length = L - 100 := by
        rw [harg, List.length_drop]
      have hdiv : (L + 99) / 100 = ((L - 100) + 99) / 100 + 1 := by omega
      have hrec := ih (p + 1) q (acc ++ process (pageSlice items p)) (by omega)
        (by omega) (by rw [hlen]; omega) (by omega)
        (fun j hj1 hj2 => hgood j (by omega) hj2) hbad
      rw [hrec]

theorem fetch_all_ok (items : List RawRecord) (repo : String) (fuel : Nat)
    (hfuel : (items.length + 99) / 100 + 1 ≤ fuel) :
    get_dependabot_alerts_from_repository repo (serverOf items allOk) fuel =
      .ok (items.map (fun a => dictSet a "repository" repo),
        (items.length + 99) / 100 + 1) := by
  unfold get_dependabot_alerts_from_repository
  have h := pagedGo_server_ok items allOk
    (fun page => page.map (fun a => dictSet a "repository" repo))
    (fun a b => List.map_append _ a b) fuel 1 []
  simp only [Nat.sub_self, Nat.zero_mul, List.drop_zero, List.nil_append] at h
  exact h (le_refl 1) hfuel (fun q _ _ => rfl)

theorem lister_all_ok (repos : List RepoRec) (fuel : Nat)
    (hfuel : (repos.length + 99) / 100 + 1 ≤ fuel)
    (harch : ∀ r ∈ repos, r.archived = false) :
    list_repositories_in_organisation (serverOf repos allOk) fuel =
      .ok (repos.map (fun r => r.name), (repos.length + 99) / 100 + 1) := by
  unfold list_repositories_in_organisation
  have hproc : ∀ a b : List RepoRec,
      ((a ++ b).filter (fun r => !r.archived)).map (fun r => r.name) =
        (a.filter (fun r => !r.archived)).map (fun r => r.name) ++
        (b.filter (fun r => !r.archived)).map (fun r => r.name) := by
    intro a b
    rw [List.filter_append, List.map_append]
  have h := pagedGo_server_ok repos allOk
    (fun page => (page.filter (fun r => !r.archived)).map (fun r => r.name))
    hproc fuel 1 []
  simp only [Nat.sub_self, Nat.zero_mul, List.drop_zero, List.nil_append] at h
  have hfilter : repos.filter (fun r => !r.archived) = repos :=
    List.filter_eq_self.mpr (fun r hr => by simp [harch r hr])
  rw [hfilter] at h
  exact h (le_refl 1) hfuel (fun q _ _ => rfl)

/-- C4 (amended): a paginated listing serving N items at 100 per page,
terminating on the first empty page, issues exactly ceil(N/100) + 1 page
requests — one per 100-item chunk plus the terminating empty-page
request, i.e. (N + 99) / 100 + 1, not ceil((N+1)/100) — and collects
exactly N items: the alert fetcher collects all N tagged records, and the
repository lister collects all N names when none of the N repositories is
archived. -/
theorem C4_pagination_count (items : List RawRecord) (repos : List RepoRec)
    (repo : String) (fuel1 fuel2 : Nat)
    (hfuel1 : (items.length + 99) / 100 + 1 ≤ fuel1)
    (hfuel2 : (repos.length + 99) / 100 + 1 ≤ fuel2)
    (harch : ∀ r ∈ repos, r.archived = false) :
    (get_dependabot_alerts_from_repository repo (serverOf items allOk) fuel1 =
      .ok (items.map (fun a => dictSet a "repository" repo),
        (items.length + 99) / 100 + 1) ∧
     (items.map (fun a => dictSet a "repository" repo)).length =
      items.length) ∧
    (list_repositories_in_organisation (serverOf repos allOk) fuel2 =
      .ok (repos.map (fun r => r.name), (repos.length + 99) / 100 + 1) ∧
     (repos.map (fun r => r.name)).length = repos.length) :=
  ⟨⟨fetch_all_ok items repo fuel1 hfuel1, by simp⟩,
   ⟨lister_all_ok repos fuel2 hfuel2 harch, by simp⟩⟩

/-- One raw alert record served by the sample pagination server. -/
def sampleAlertRecord : RawRecord := [("number", "1"), ("state", "open")]

theorem C4_pagination_count_witness :
    ((([sampleAlertRecord] : List RawRecord).length + 99) / 100 + 1 ≤ 2 ∧
     (([⟨"repo-1", false⟩] : List RepoRec).length + 99) / 100 + 1 ≤ 2 ∧
     (∀ r ∈ ([⟨"repo-1", false⟩] : List RepoRec), r.archived = false)) ∧
    ((get_dependabot_alerts_from_repository "repo-x"
        (serverOf [sampleAlertRecord] allOk) 2 =
      .ok (([sampleAlertRecord] : List RawRecord).map
          (fun a => dictSet a "repository" "repo-x"),
        (([sampleAlertRecord] : List RawRecord).length + 99) / 100 + 1) ∧
      (([sampleAlertRecord] : List RawRecord).map
        (fun a => dictSet a "repository" "repo-x")).length =
        ([sampleAlertRecord] : List RawRecord).length) ∧
     (list_repositories_in_organisation
        (serverOf ([⟨"repo-1", false⟩] : List RepoRec) allOk) 2 =
      .ok (([⟨"repo-1", false⟩] : List RepoRec).map (fun r => r.name),
        (([⟨"repo-1", false⟩] : List RepoRec).length + 99) / 100 + 1) ∧
      (([⟨"repo-1", false⟩] : List RepoRec).map (fun r => r.name)).length =
        ([⟨"repo-1", false⟩] : List RepoRec).length)) :=
  ⟨⟨by decide, by decide, by decide⟩,
    C4_pagination_count [sampleAlertRecord] [⟨"repo-1", false⟩] "repo-x" 2 2
      (by decide) (by decide) (by decide)⟩

/-- C4 as stated is false at N = 1: the fetcher issues 2 page requests
(page 1 carries the item, page 2 is the empty terminator), while
ceil((N+1)/100) = (1 + 1 + 99) / 100 = 1. -/
theorem C4_pagination_count_counterexample :
    get_dependabot_alerts_from_repository "repo-x"
        (serverOf [sampleAlertRecord] allOk) 2 =
      .ok ([dictSet sampleAlertRecord "repository" "repo-x"], 2) ∧
    (1 + 1 + 99) / 100 = 1 ∧ (2 : Nat) ≠ 1 := by
  refine ⟨?_, by norm_num, by norm_num⟩
  decide

theorem pagedGo_ok_iff {σ α : Type} (items : List σ)
    (statuses : Nat → Nat × String) (process : List σ → List α)
    (hom : ∀ a b : List σ, process (a ++ b) = process a ++ process b)
    (fuel : Nat) (hfuel : (items.length + 99) / 100 + 1 ≤ fuel) :
    (∃ out, pagedGo (serverOf items statuses) process fuel 1 [] = .ok out) ↔
      ∀ q, 1 ≤ q → q ≤ (items.length + 99) / 100 + 1 →
        (statuses q).1 = 200 := by
  have hdrop : items.drop ((1 - 1) * 100) = items := by simp
  constructor
  · intro hok
    by_contra hbad
    push_neg at hbad
    have hex : ∃ q, 1 ≤ q ∧ q ≤ (items.length + 99) / 100 + 1 ∧
        (statuses q).1 ≠ 200 := by
      rcases hbad with ⟨q, hq1, hq2, hq3⟩
      exact ⟨q, hq1, hq2, hq3⟩
    have hspec := Nat.find_spec hex
    have hmin : ∀ j, 1 ≤ j → j < Nat.find hex → (statuses j).1 = 200 := by
      intro j hj1 hj2
      by_contra hjbad
      exact Nat.find_min hex hj2 ⟨hj1, by omega, hjbad⟩
    have herr := pagedGo_server_error items statuses process fuel 1
      (Nat.find hex) [] (le_refl 1) hspec.1
      (by rw [hdrop]; omega) (by omega) hmin hspec.2.2
    rcases hok with ⟨out, hout⟩
    rw [herr] at hout
    exact Except.noConfusion hout
  · intro hgood
    have h := pagedGo_server_ok items statuses process hom fuel 1 []
      (le_refl 1) (by rw [hdrop]; omega)
      (by
        intro q hq1 hq2
        rw [hdrop] at hq2
        exact hgood q hq1 (by omega))
    exact ⟨_, h⟩

theorem pagedGo_first_error {σ α : Type} (items : List σ)
    (statuses : Nat → Nat × String) (process : List σ → List α)
    (fuel : Nat) (hfuel : (items.length + 99) / 100 + 1 ≤ fuel)
    (q : Nat) (hq1 : 1 ≤ q) (hqE : q ≤ (items.length + 99) / 100 + 1)
    (hbad : (statuses q).1 ≠ 200)
    (hgood : ∀ j, 1 ≤ j → j < q → (statuses j).1 = 200) :
    pagedGo (serverOf items statuses) process fuel 1 [] =
      .error ⟨(statuses q).1, (statuses q).2⟩ := by
  have hdrop : items.drop ((1 - 1) * 100) = items := by simp
  exact pagedGo_server_error items statuses process fuel 1 q [] (le_refl 1)
    hq1 (by rw [hdrop]; omega) (by omega) hgood hbad

/-- C7 (amended): against a server that slices `items` into 100-per-page
chunks and answers page `q` with status `statuses q`, a listing call
(alert fetcher or repository lister) returns normally iff every page
request up to and including the terminating empty page — page
N/100-rounded-up plus one — succeeds; the first failing page makes the
call fail with a `RequestError` carrying that response's status code and
reason, with no partial result returned. -/
theorem C7_nonsuccess_aborts (items : List RawRecord) (repos : List RepoRec)
    (repo : String) (statuses : Nat → Nat × String) (fuel1 fuel2 : Nat)
    (hfuel1 : (items.length + 99) / 100 + 1 ≤ fuel1)
    (hfuel2 : (repos.length + 99) / 100 + 1 ≤ fuel2) :
    ((∃ out, get_dependabot_alerts_from_repository repo
        (serverOf items statuses) fuel1 = .ok out) ↔
      (∀ q, 1 ≤ q → q ≤ (items.length + 99) / 100 + 1 →
        (statuses q).1 = 200)) ∧
    ((∃ out, list_repositories_in_organisation
        (serverOf repos statuses) fuel2 = .ok out) ↔
      (∀ q, 1 ≤ q → q ≤ (repos.length + 99) / 100 + 1 →
        (statuses q).1 = 200)) ∧
    (∀ q, 1 ≤ q → q ≤ (items.length + 99) / 100 + 1 →
      (statuses q).1 ≠ 200 →
      (∀ j, 1 ≤ j → j < q → (statuses j).1 = 200) →
      get_dependabot_alerts_from_repository repo
        (serverOf items statuses) fuel1 =
        .error ⟨(statuses q).1, (statuses q).2⟩) ∧
    (∀ q, 1 ≤ q → q ≤ (repos.length + 99) / 100 + 1 →
      (statuses q).1 ≠ 200 →
      (∀ j, 1 ≤ j → j < q → (statuses j).1 = 200) →
      list_repositories_in_organisation (serverOf repos statuses) fuel2 =
        .error ⟨(statuses q).1, (statuses q).2⟩) := by
  refine ⟨?_, ?_, ?_, ?_⟩
  · exact pagedGo_ok_iff items statuses _
      (fun a b => List.map_append _ a b) fuel1 hfuel1
  · exact pagedGo_ok_iff repos statuses _
      (fun a b => by rw [List.filter_append, List.map_append]) fuel2 hfuel2
  · intro q hq1 hqE hbad hgood
    exact pagedGo_first_error items statuses _ fuel1 hfuel1 q hq1 hqE hbad hgood
  · intro q hq1 hqE hbad hgood
    exact pagedGo_first_error repos statuses _ fuel2 hfuel2 q hq1 hqE hbad hgood

theorem C7_nonsuccess_aborts_witness :
    ((([sampleAlertRecord] : List RawRecord).length + 99) / 100 + 1 ≤ 2 ∧
     (([⟨"repo-1", false⟩] : List RepoRec).length + 99) / 100 + 1 ≤ 2) ∧
    (((∃ out, get_dependabot_alerts_from_repository "repo-x"
        (serverOf [sampleAlertRecord] allOk) 2 = .ok out) ↔
      (∀ q, 1 ≤ q →
        q ≤ (([sampleAlertRecord] : List RawRecord).length + 99) / 100 + 1 →
        (allOk q).1 = 200)) ∧
     ((∃ out, list_repositories_in_organisation
        (serverOf ([⟨"repo-1", false⟩] : List RepoRec) allOk) 2 = .ok out) ↔
      (∀ q, 1 ≤ q →
        q ≤ (([⟨"repo-1", false⟩] : List RepoRec).length + 99) / 100 + 1 →
        (allOk q).1 = 200)) ∧
     (∀ q, 1 ≤ q →
      q ≤ (([sampleAlertRecord] : List RawRecord).length + 99) / 100 + 1 →
      (allOk q).1 ≠ 200 →
      (∀ j, 1 ≤ j → j < q → (allOk j).1 = 200) →
      get_dependabot_alerts_from_repository "repo-x"
        (serverOf [sampleAlertRecord] allOk) 2 =
        .error ⟨(allOk q).1, (allOk q).2⟩) ∧
     (∀ q, 1 ≤ q →
      q ≤ (([⟨"repo-1", false⟩] : List RepoRec).length + 99) / 100 + 1 →
      (allOk q).1 ≠ 200 →
      (∀ j, 1 ≤ j → j < q → (allOk j).1 = 200) →
      list_repositories_in_organisation
        (serverOf ([⟨"repo-1", false⟩] : List RepoRec) allOk) 2 =
        .error ⟨(allOk q).1, (allOk q).2⟩)) :=
  ⟨⟨by decide, by decide⟩,
    C7_nonsuccess_aborts [sampleAlertRecord] [⟨"repo-1", false⟩] "repo-x"
      allOk 2 2 (by decide) (by decide)⟩

/-- A server whose every response is HTTP 500 with an empty body. -/
def allFail : Nat → Nat × String := fun _ => (500, "Internal Server Error")

/-- C7 as stated is false: with zero items, page 1 is the terminating
empty page and no page request precedes it, so the original claim's
condition ("every page request before the terminating empty page
succeeded") holds vacuously; yet when page 1 answers HTTP 500 the call
does not return normally — it fails with the 500 error. -/
theorem C7_nonsuccess_aborts_counterexample :
    pageSlice ([] : List RawRecord) 1 = [] ∧
    get_dependabot_alerts_from_repository "repo-x"
        (serverOf ([] : List RawRecord) allFail) 1 =
      .error ⟨500, "Internal Server Error"⟩ := by
  refine ⟨rfl, ?_⟩
  decide

end Dependabot
